import Mathlib

/-!
Verification development for the whatsmeow-transcribe service (main.go).

The side-effecting functions of the program are shallowly embedded as pure Lean
functions.  Every fallible external step (form-file creation, part write,
writer close, request construction, HTTP transport, body read, media
download, message send) is driven by an explicit environment record whose
fields give the outcome of that step, so each Go error-handling path is a
reachable branch of the Lean definition.  Observable effects (log lines,
outbound HTTP requests, downloads, sent messages, process exit) are
collected in result records.
-/

namespace Transcribe

/-- Severity of a log line, mirroring the waLog methods Infof / Warnf / Errorf. -/
inductive LogLevel where
  | info
  | warn
  | error
deriving DecidableEq, Repr

/-- One emitted log line. -/
structure LogEntry where
  level : LogLevel
  message : String
deriving DecidableEq, Repr

/-- The flag configuration consumed by getTranscription: `--api-url` and
`--api-key` from main.go. -/
structure Config where
  apiUrl : String
  apiKey : String
deriving DecidableEq, Repr

/-- One part of a multipart/form-data body: a simple form field or a file
part (field name, filename, raw byte content). -/
inductive MultipartPart where
  | field (name value : String)
  | file (fieldname filename : String) (content : List Nat)
deriving DecidableEq, Repr

/-- State of the Go mime/multipart Writer as this program uses it: the random
boundary string and the parts written so far, in order. -/
structure MultipartWriter where
  boundary : String
  parts : List MultipartPart
deriving DecidableEq, Repr

/-- writer.WriteField(name, value): appends a form field part.  (The source
discards the error result of WriteField.) -/
def MultipartWriter.writeField (w : MultipartWriter) (name value : String) :
    MultipartWriter :=
  { w with parts := w.parts ++ [MultipartPart.field name value] }

/-- writer.CreateFormFile(fieldname, filename): appends an empty file part;
subsequent part.Write calls append bytes to it. -/
def MultipartWriter.createFormFile (w : MultipartWriter) (fieldname filename : String) :
    MultipartWriter :=
  { w with parts := w.parts ++ [MultipartPart.file fieldname filename []] }

/-- Append data to the file part most recently created (part.Write on the
handle returned by CreateFormFile). -/
def appendToLastFile : List MultipartPart → List Nat → List MultipartPart
  | [], _ => []
  | [MultipartPart.file f fn content], data => [MultipartPart.file f fn (content ++ data)]
  | [p], _ => [p]
  | p :: q :: rest, data => p :: appendToLastFile (q :: rest) data

/-- part.Write(audio_data) on the last (file) part of the writer. -/
def MultipartWriter.writeToFilePart (w : MultipartWriter) (data : List Nat) :
    MultipartWriter :=
  { w with parts := appendToLastFile w.parts data }

/-- writer.FormDataContentType(): "multipart/form-data; boundary=" plus the
boundary of the writer.  (Go only quotes the boundary when it holds special
characters; the randomly generated boundary of the writer never does.) -/
def formDataContentType (boundary : String) : String :=
  "multipart/form-data; boundary=" ++ boundary

/-- The HTTP response as getTranscription consumes it: resp.Status (text),
resp.StatusCode, and the body (already decoded to text, since the source
converts the bytes with string(...)). -/
structure HttpResponse where
  status : String
  statusCode : Nat
  body : String
deriving DecidableEq, Repr

/-- The outbound HTTP request getTranscription hands to client.Do. -/
structure HttpRequest where
  method : String
  url : String
  headers : List (String × String)
  body : List MultipartPart
deriving DecidableEq, Repr

/-- Environment for one getTranscription invocation: the boundary the
multipart writer generated and the outcome of every fallible step, in the
order the source performs them. -/
structure TranscriptionEnv where
  boundary : String
  createFormFileErr : Option String
  partWriteErr : Option String
  writerCloseErr : Option String
  newRequestErr : Option String
  sendResult : Except String HttpResponse
  readBodyErr : Option String
deriving Repr

/-- Everything observable about one getTranscription invocation: the
returned optional transcript, the log lines emitted, and the request handed
to the HTTP client (present exactly when construction succeeded). -/
structure TranscriptionOutcome where
  result : Option String
  logs : List LogEntry
  request : Option HttpRequest
deriving DecidableEq, Repr

/-- getTranscription from main.go.  Builds the multipart body (two form
fields, then the file part holding the audio bytes), closes the writer,
builds a POST request with the multipart content type and bearer
authorization, sends it, and reads the body; each error path logs a warning
and returns none.  A response is returned as its body text, with an Infof
for the status line always and a Warnf echoing the body when the status
code is not 200 (http.StatusOK). -/
def getTranscription (cfg : Config) (env : TranscriptionEnv) (audio_data : List Nat) :
    TranscriptionOutcome :=
  let writer : MultipartWriter := { boundary := env.boundary, parts := [] }
  let writer := writer.writeField "model" "whisper-1"
  let writer := writer.writeField "response_format" "text"
  match env.createFormFileErr with
  | some e =>
    { result := none,
      logs := [⟨LogLevel.warn, "Transcription: Error creating form file: " ++ e⟩],
      request := none }
  | none =>
  let writer := writer.createFormFile "file" "ptt.oga"
  match env.partWriteErr with
  | some e =>
    { result := none,
      logs := [⟨LogLevel.warn, "Transcription: Error writing data into part: " ++ e⟩],
      request := none }
  | none =>
  let writer := writer.writeToFilePart audio_data
  match env.writerCloseErr with
  | some e =>
    { result := none,
      logs := [⟨LogLevel.warn, "Transcription: Error closing writer: " ++ e⟩],
      request := none }
  | none =>
  match env.newRequestErr with
  | some e =>
    { result := none,
      logs := [⟨LogLevel.warn, "Transcription: Error creating request: " ++ e⟩],
      request := none }
  | none =>
  let req : HttpRequest :=
    { method := "POST",
      url := cfg.apiUrl,
      headers := [("Content-Type", formDataContentType writer.boundary),
                  ("Authorization", "Bearer " ++ cfg.apiKey)],
      body := writer.parts }
  match env.sendResult with
  | Except.error e =>
    { result := none,
      logs := [⟨LogLevel.warn, "Transcription: Error sending request: " ++ e⟩],
      request := some req }
  | Except.ok resp =>
  let statusLog : LogEntry := ⟨LogLevel.info, "Transcription: Response status: " ++ resp.status⟩
  match env.readBodyErr with
  | some e =>
    { result := none,
      logs := [statusLog, ⟨LogLevel.warn, "Transcription: Unable to read response body: " ++ e⟩],
      request := some req }
  | none =>
  let responseText := resp.body
  if resp.statusCode ≠ 200 then
    { result := some responseText,
      logs := [statusLog, ⟨LogLevel.warn, "Transcription: Response: „" ++ responseText ++ "“"⟩],
      request := some req }
  else
    { result := some responseText,
      logs := [statusLog],
      request := some req }

/-- Count of warning-level lines in a log. -/
def warnCount (logs : List LogEntry) : Nat :=
  (logs.filter (fun l => l.level == LogLevel.warn)).length

/-! ## JIDs and recipient parsing -/

/-- Model of the external whatsmeow types.JID, restricted to the two fields
this program reads or compares: the user part and the server part.  (The
device and agent counters of the library are never consulted here.) -/
structure JID where
  User : String
  Server : String
deriving DecidableEq, Repr

/-- types.DefaultUserServer from the whatsmeow library. -/
def DefaultUserServer : String := "s.whatsapp.net"

/-- Model of the external whatsmeow types.NewJID: a plain user/server pair. -/
def NewJID (user server : String) : JID :=
  { User := user, Server := server }

/-- Split a character list at every character satisfying p, keeping empty
pieces; the accumulator holds the current piece reversed. -/
def splitChars (p : Char → Bool) : List Char → List Char → List (List Char)
  | [], acc => [acc.reverse]
  | d :: rest, acc =>
    if p d then acc.reverse :: splitChars p rest []
    else splitChars p rest (d :: acc)

/-- strings.Split(s, sep) for a one-character separator: the pieces of s
between occurrences of sep (possibly empty, at least one piece). -/
def splitOnChar (s : String) (sep : Char) : List String :=
  (splitChars (fun d => d == sep) s.data []).map String.mk

/-- strings.ContainsRune. -/
def containsRune (s : String) (c : Char) : Bool :=
  s.data.any (fun d => d == c)

/-- Model of the external whatsmeow types.ParseJID: the input is split at
'@'; with no '@' present the whole input becomes the server and the user is
empty; otherwise the text before the first '@' is the user and the text
after it the server.  The library additionally parses a numeric
device/agent suffix when the user part holds ':' or '.'; that path is
modelled as checking that the text after each separator is a number,
failing on a malformed one, and is not reached by any input considered
below. -/
def ParseJID (jid : String) : Except String JID :=
  match splitOnChar jid '@' with
  | [server] => Except.ok (NewJID "" server)
  | user :: server :: _ =>
    if containsRune user ':' ∨ containsRune user '.' then
      match splitChars (fun c => c == ':' || c == '.') user.data [] with
      | u :: suffixes =>
        if suffixes.all (fun l => !l.isEmpty && l.all Char.isDigit) then
          Except.ok (NewJID (String.mk u) server)
        else
          Except.error ("failed to parse device or agent part of " ++ jid)
      | [] => Except.error ("failed to parse " ++ jid)
    else
      Except.ok (NewJID user server)
  | [] => Except.ok (NewJID "" "")

/-- The body of parseJID from main.go past the arg[0] access, taking the
argument as its (necessarily non-empty) character list: a leading '+' is
stripped; an argument without '@' becomes a user identifier on the default
user server; otherwise the argument is parsed as a full JID, rejecting
parse errors and an empty user part with an Errorf.  Returns the (JID, ok)
pair together with the log lines emitted. -/
def parseJIDChecked (c : Char) (cs : List Char) : (JID × Bool) × List LogEntry :=
  let arg := if c = '+' then String.mk cs else String.mk (c :: cs)
  if containsRune arg '@' then
    match ParseJID arg with
    | Except.error e =>
      ((NewJID "" "", false),
        [⟨LogLevel.error, "Invalid JID " ++ arg ++ ": " ++ e⟩])
    | Except.ok recipient =>
      if recipient.User = "" then
        ((recipient, false),
          [⟨LogLevel.error, "Invalid JID " ++ arg ++ ": no server specified"⟩])
      else
        ((recipient, true), [])
  else
    ((NewJID arg DefaultUserServer, true), [])

/-- parseJID from main.go.  Go indexes arg[0] unconditionally, so the empty
string is a runtime out-of-range fault, modelled as `none`; every non-empty
argument flows through parseJIDChecked. -/
def parseJID (arg : String) : Option ((JID × Bool) × List LogEntry) :=
  match arg.data with
  | [] => none
  | c :: cs => some (parseJIDChecked c cs)

/-- strings.Fields: the maximal runs of non-whitespace characters of the
input, in order; never yields an empty token. -/
def fields (s : String) : List String :=
  ((splitChars Char.isWhitespace s.data []).filter (fun l => !l.isEmpty)).map String.mk

/-! ## Command dispatcher -/

/-- The plain text message the program sends: a waProto.Message whose only
populated field is Conversation. -/
structure WAMessage where
  conversation : Option String
deriving DecidableEq, Repr

/-- A client operation invoked by the command dispatcher, recorded in the
order performed. -/
inductive CmdAction where
  | pairPhone (number : String)
  | disconnect
  | connect
  | logout
  | sendMessage (recipient : JID) (msg : WAMessage)
deriving DecidableEq, Repr

/-- Environment for one handleCmd invocation: outcomes of the client calls
a command may perform. -/
structure CmdEnv where
  pairPhoneResult : Except String String
  connectErr : Option String
  logoutErr : Option String
  sendResult : Except String String
deriving Repr

/-- Everything observable about one handleCmd invocation: log lines, lines
printed to stdout, client operations performed, whether the deliberate
pair-phone panic fired, and whether a runtime fault (out-of-range index)
occurred. -/
structure CmdOutput where
  logs : List LogEntry
  prints : List String
  actions : List CmdAction
  panicked : Bool
  faulted : Bool
deriving DecidableEq, Repr

/-- handleCmd from main.go: the switch over the lowercased command name.
pair-phone panics when the client call errors; reconnect disconnects then
connects; logout logs the outcome; send parses the recipient with parseJID
(a `none` from it, impossible for tokens produced by fields, is recorded as
a fault), joins the remaining tokens with spaces and sends them as a plain
text message.  Unrecognized commands do nothing. -/
def handleCmd (env : CmdEnv) (cmd : String) (args : List String) : CmdOutput :=
  match cmd with
  | "pair-phone" =>
    match args with
    | [] => { logs := [⟨LogLevel.error, "Usage: pair-phone <number>"⟩],
              prints := [], actions := [], panicked := false, faulted := false }
    | number :: _ =>
      match env.pairPhoneResult with
      | Except.error _ =>
        { logs := [], prints := [], actions := [CmdAction.pairPhone number],
          panicked := true, faulted := false }
      | Except.ok linkingCode =>
        { logs := [], prints := ["Linking code: " ++ linkingCode],
          actions := [CmdAction.pairPhone number], panicked := false, faulted := false }
  | "reconnect" =>
    match env.connectErr with
    | some e =>
      { logs := [⟨LogLevel.error, "Failed to connect: " ++ e⟩], prints := [],
        actions := [CmdAction.disconnect, CmdAction.connect],
        panicked := false, faulted := false }
    | none =>
      { logs := [], prints := [],
        actions := [CmdAction.disconnect, CmdAction.connect],
        panicked := false, faulted := false }
  | "logout" =>
    match env.logoutErr with
    | some e =>
      { logs := [⟨LogLevel.error, "Error logging out: " ++ e⟩], prints := [],
        actions := [CmdAction.logout], panicked := false, faulted := false }
    | none =>
      { logs := [⟨LogLevel.info, "Successfully logged out"⟩], prints := [],
        actions := [CmdAction.logout], panicked := false, faulted := false }
  | "send" =>
    match args with
    | [] => { logs := [⟨LogLevel.error, "Usage: send <jid> <text>"⟩],
              prints := [], actions := [], panicked := false, faulted := false }
    | [_] => { logs := [⟨LogLevel.error, "Usage: send <jid> <text>"⟩],
               prints := [], actions := [], panicked := false, faulted := false }
    | recipientArg :: textArgs =>
      match parseJID recipientArg with
      | none =>
        { logs := [], prints := [], actions := [], panicked := false, faulted := true }
      | some ((_, false), parseLogs) =>
        { logs := parseLogs, prints := [], actions := [], panicked := false, faulted := false }
      | some ((recipient, true), parseLogs) =>
        let msg : WAMessage := { conversation := some (String.intercalate " " textArgs) }
        match env.sendResult with
        | Except.error e =>
          { logs := parseLogs ++ [⟨LogLevel.error, "Error sending message: " ++ e⟩],
            prints := [], actions := [CmdAction.sendMessage recipient msg],
            panicked := false, faulted := false }
        | Except.ok timestamp =>
          { logs := parseLogs ++
              [⟨LogLevel.info, "Message sent (server timestamp: " ++ timestamp ++ ")"⟩],
            prints := [], actions := [CmdAction.sendMessage recipient msg],
            panicked := false, faulted := false }
  | _ => { logs := [], prints := [], actions := [], panicked := false, faulted := false }

/-! ## Event dispatcher -/

/-- The waProto.AudioMessage as the handler consumes it: only the PTT flag
is inspected (the media keys needed for download stay inside the external
client). -/
structure AudioMessage where
  ptt : Bool
deriving DecidableEq, Repr

/-- The message metadata (evt.Info) the handler reads: identifiers and the
purely-logged display fields. `chat` is Info.MessageSource.Chat, the
conversation the message arrived in. -/
structure MessageInfo where
  id : String
  pushName : String
  timestamp : String
  msgType : String
  category : String
  sourceString : String
  chat : JID
deriving DecidableEq, Repr

/-- A Message event as the handler consumes it: metadata, the optional
audio attachment, and the flags used only for the meta log line. -/
structure MessageEvent where
  info : MessageInfo
  audioMessage : Option AudioMessage
  isViewOnce : Bool
  isViewOnceV2 : Bool
  isDocumentWithCaption : Bool
  isEdit : Bool
deriving DecidableEq, Repr

/-- The event types distinguished by the switch in handler; every other event
falls into `other` and is ignored. -/
inductive Event where
  | streamReplaced
  | disconnected
  | message (m : MessageEvent)
  | other
deriving Repr

/-- Environment for one handler invocation: the outcome of the media
download, the transcription environment, and the error (if any) the message
send would return — which the source discards. -/
structure HandlerEnv where
  downloadResult : Except String (List Nat)
  tenv : TranscriptionEnv
  sendErr : Option String
deriving Repr

/-- Everything observable about one handler invocation: log lines, download
attempts, the audio byte sequences handed to getTranscription, the messages
sent (conversation target and content), and whether the process exited
(os.Exit(0) on StreamReplaced / Disconnected). -/
structure HandlerOutput where
  logs : List LogEntry
  downloads : List AudioMessage
  transcriptionCalls : List (List Nat)
  sentMessages : List (JID × WAMessage)
  exited : Bool
deriving DecidableEq, Repr

/-- The meta-parts list built for the received-message log line.  (The
source tests evt.IsViewOnce a second time for the "ephemeral" tag — kept
verbatim.) -/
def metaParts (m : MessageEvent) : List String :=
  ["pushname: " ++ m.info.pushName, "timestamp: " ++ m.info.timestamp]
    ++ (if m.info.msgType ≠ "" then ["type: " ++ m.info.msgType] else [])
    ++ (if m.info.category ≠ "" then ["category: " ++ m.info.category] else [])
    ++ (if m.isViewOnce then ["view once"] else [])
    ++ (if m.isViewOnce then ["ephemeral"] else [])
    ++ (if m.isViewOnceV2 then ["ephemeral (v2)"] else [])
    ++ (if m.isDocumentWithCaption then ["document with caption"] else [])
    ++ (if m.isEdit then ["edit"] else [])

/-- The Infof line announcing a received message. -/
def receivedLog (m : MessageEvent) : LogEntry :=
  ⟨LogLevel.info,
    "Received message " ++ m.info.id ++ " from " ++ m.info.sourceString
      ++ " (" ++ String.intercalate ", " (metaParts m) ++ ")."⟩

/-- handler from main.go.  StreamReplaced and Disconnected exit the
process.  A Message event is logged; when it carries an audio attachment
the audio is downloaded (a failed download is logged with Errorf and the
event dropped); when the attachment is flagged push-to-talk the bytes go to
getTranscription, and a non-null transcript is sent back to the source
conversation as a plain text message, with the results of the send discarded.
All other events are ignored. -/
def handler (cfg : Config) (env : HandlerEnv) (evt : Event) : HandlerOutput :=
  match evt with
  | Event.streamReplaced =>
    { logs := [], downloads := [], transcriptionCalls := [], sentMessages := [], exited := true }
  | Event.disconnected =>
    { logs := [], downloads := [], transcriptionCalls := [], sentMessages := [], exited := true }
  | Event.other =>
    { logs := [], downloads := [], transcriptionCalls := [], sentMessages := [], exited := false }
  | Event.message m =>
    match m.audioMessage with
    | none =>
      { logs := [receivedLog m], downloads := [], transcriptionCalls := [],
        sentMessages := [], exited := false }
    | some am =>
      match env.downloadResult with
      | Except.error e =>
        { logs := [receivedLog m, ⟨LogLevel.error, "Failed to download audio: " ++ e⟩],
          downloads := [am], transcriptionCalls := [], sentMessages := [], exited := false }
      | Except.ok audio_data =>
        if am.ptt then
          let t := getTranscription cfg env.tenv audio_data
          match t.result with
          | some text =>
            { logs := receivedLog m :: t.logs,
              downloads := [am], transcriptionCalls := [audio_data],
              sentMessages := [(m.info.chat, { conversation := some text })],
              exited := false }
          | none =>
            { logs := receivedLog m :: t.logs,
              downloads := [am], transcriptionCalls := [audio_data],
              sentMessages := [], exited := false }
        else
          { logs := [receivedLog m], downloads := [am], transcriptionCalls := [],
            sentMessages := [], exited := false }

/-! ## Interactive loop and pairing -/

/-- What the main loop does with one line read from stdin (already trimmed
and non-empty when delivered on the input channel; the zero value "" means
the channel was closed). -/
inductive LoopAction where
  | exit
  | pairDecision (reject : Bool)
  | ignoredWhilePairing
  | dispatch (cmd : String) (args : List String)
deriving DecidableEq, Repr

/-- One iteration of the input-handling select branch in main: an empty line
(closed channel) exits; while a pairing decision is pending, "r" sends
reject and "a" sends accept on pairRejectChan and anything else is dropped;
otherwise the line is split into fields, the first token lowercased as the
command name and the rest passed as arguments to handleCmd. -/
def inputStep (isWaitingForPair : Bool) (cmd : String) : LoopAction :=
  if cmd = "" then
    LoopAction.exit
  else if isWaitingForPair then
    if cmd = "r" then LoopAction.pairDecision true
    else if cmd = "a" then LoopAction.pairDecision false
    else LoopAction.ignoredWhilePairing
  else
    let args := fields cmd
    LoopAction.dispatch (args.headD "").toLower args.tail

/-- The pairing decision window used by cli.PrePairCallback via
time.After(3 * time.Second). -/
def pairDecisionWindowSeconds : Nat := 3

/-- cli.PrePairCallback from main.go.  The argument is the value received
from pairRejectChan within the decision window, `none` when the window
elapsed first.  A received `true` (reject) makes the callback return false;
a received `false` and a timeout both log acceptance and return true. -/
def prePairCallback (received : Option Bool) : Bool × List LogEntry :=
  let pairingLog : LogEntry :=
    ⟨LogLevel.info, "Pairing. Type r within 3 seconds to reject pair"⟩
  match received with
  | some true => (false, [pairingLog, ⟨LogLevel.info, "Rejecting pair"⟩])
  | some false => (true, [pairingLog, ⟨LogLevel.info, "Accepting pair"⟩])
  | none => (true, [pairingLog, ⟨LogLevel.info, "Accepting pair"⟩])



/-! ## Concrete fixtures used by the witnesses -/

/-- Sample configuration. -/
def sampleCfg : Config := { apiUrl := "http://localhost:9000/v1/audio", apiKey := "sk-test" }

/-- A 200 response. -/
def sampleRespOk : HttpResponse := { status := "200 OK", statusCode := 200, body := "hello world" }

/-- A 400 response. -/
def sampleResp400 : HttpResponse :=
  { status := "400 Bad Request", statusCode := 400, body := "error payload" }

/-- A fully successful transcription environment. -/
def sampleEnvOk : TranscriptionEnv :=
  { boundary := "b0undary", createFormFileErr := none, partWriteErr := none,
    writerCloseErr := none, newRequestErr := none,
    sendResult := Except.ok sampleRespOk, readBodyErr := none }

/-- An environment where the transport fails (endpoint unreachable). -/
def sampleEnvSendFail : TranscriptionEnv :=
  { boundary := "b0undary", createFormFileErr := none, partWriteErr := none,
    writerCloseErr := none, newRequestErr := none,
    sendResult := Except.error "connection refused", readBodyErr := none }

/-- An environment answering with a 400 status. -/
def sampleEnv400 : TranscriptionEnv :=
  { boundary := "b0undary", createFormFileErr := none, partWriteErr := none,
    writerCloseErr := none, newRequestErr := none,
    sendResult := Except.ok sampleResp400, readBodyErr := none }

/-- Handler environment whose transcription transport fails. -/
def sampleHEnvSendFail : HandlerEnv :=
  { downloadResult := Except.ok [1, 2, 3], tenv := sampleEnvSendFail, sendErr := none }

/-- Handler environment where everything succeeds. -/
def sampleHEnvOk : HandlerEnv :=
  { downloadResult := Except.ok [1, 2, 3], tenv := sampleEnvOk, sendErr := none }

/-- A message event carrying a push-to-talk voice note. -/
def samplePttEvent : MessageEvent :=
  { info := { id := "MSGID1", pushName := "Alice", timestamp := "2024-01-01",
              msgType := "media", category := "", sourceString := "alice@s.whatsapp.net",
              chat := NewJID "491701234567" DefaultUserServer },
    audioMessage := some { ptt := true },
    isViewOnce := false, isViewOnceV2 := false,
    isDocumentWithCaption := false, isEdit := false }

/-- The same message event with the push-to-talk flag cleared. -/
def sampleAudioEvent : MessageEvent :=
  { samplePttEvent with audioMessage := some { ptt := false } }

/-! ## Claim theorems -/

/-- Claim C1: for every audio byte sequence given to getTranscription, the
result is either a string equal to the HTTP response body or the null
result; no input and no construction or transport failure causes an
unhandled fault — every failure path logs a warning and returns null.
(Totality of the embedding over every environment gives absence of
unhandled faults.) -/
theorem c1_getTranscription_total (cfg : Config) (env : TranscriptionEnv)
    (audio : List Nat) :
    (∀ s, (getTranscription cfg env audio).result = some s →
      ∃ resp, env.sendResult = Except.ok resp ∧ s = resp.body) ∧
    ((getTranscription cfg env audio).result = none →
      ∃ l ∈ (getTranscription cfg env audio).logs, l.level = LogLevel.warn) := by
  rcases env with ⟨b, cf, pw, wc, nr, sr, rb⟩
  cases cf <;> cases pw <;> cases wc <;> cases nr <;> cases sr <;> cases rb <;>
    simp [getTranscription] <;>
    split <;> simp

/-- Witness for C1: with an unreachable endpoint the result is null and a
warning was logged. -/
theorem c1_getTranscription_total_witness :
    ∃ l ∈ (getTranscription sampleCfg sampleEnvSendFail []).logs,
      l.level = LogLevel.warn :=
  (c1_getTranscription_total sampleCfg sampleEnvSendFail []).2 rfl

/-- Claim C2: for every audio byte sequence, the request built by
getTranscription is an HTTP POST to the configured endpoint whose multipart
body holds exactly the form field model = whisper-1, the form field
response_format = text, and a file field named "file" with filename
"ptt.oga" holding the audio bytes verbatim, with Content-Type set to the
multipart boundary type and Authorization set to Bearer plus the api key. -/
theorem c2_request_shape (cfg : Config) (env : TranscriptionEnv) (audio : List Nat)
    (h1 : env.createFormFileErr = none) (h2 : env.partWriteErr = none)
    (h3 : env.writerCloseErr = none) (h4 : env.newRequestErr = none) :
    (getTranscription cfg env audio).request = some
      { method := "POST",
        url := cfg.apiUrl,
        headers := [("Content-Type", formDataContentType env.boundary),
                    ("Authorization", "Bearer " ++ cfg.apiKey)],
        body := [MultipartPart.field "model" "whisper-1",
                 MultipartPart.field "response_format" "text",
                 MultipartPart.file "file" "ptt.oga" audio] } := by
  rcases env with ⟨b, cf, pw, wc, nr, sr, rb⟩
  cases h1; cases h2; cases h3; cases h4
  cases sr <;> cases rb <;>
    simp [getTranscription, MultipartWriter.writeField, MultipartWriter.createFormFile,
      MultipartWriter.writeToFilePart, appendToLastFile] <;>
    split <;> simp

/-- Witness for C2 at a concrete configuration, environment and audio
payload. -/
theorem c2_request_shape_witness :
    (getTranscription sampleCfg sampleEnvOk [7, 8]).request = some
      { method := "POST",
        url := sampleCfg.apiUrl,
        headers := [("Content-Type", formDataContentType sampleEnvOk.boundary),
                    ("Authorization", "Bearer " ++ sampleCfg.apiKey)],
        body := [MultipartPart.field "model" "whisper-1",
                 MultipartPart.field "response_format" "text",
                 MultipartPart.file "file" "ptt.oga" [7, 8]] } :=
  c2_request_shape sampleCfg sampleEnvOk [7, 8] rfl rfl rfl rfl

/-- Claim C3: whenever the transcription HTTP call returns a response (any
status) and the body read succeeds, getTranscription returns the full body
as its result; for every non-2xx status a warning is logged, but the body
is still returned unchanged rather than null. -/
theorem c3_response_returned (cfg : Config) (env : TranscriptionEnv) (audio : List Nat)
    (resp : HttpResponse)
    (h1 : env.createFormFileErr = none) (h2 : env.partWriteErr = none)
    (h3 : env.writerCloseErr = none) (h4 : env.newRequestErr = none)
    (h5 : env.sendResult = Except.ok resp) (h6 : env.readBodyErr = none) :
    (getTranscription cfg env audio).result = some resp.body ∧
    (¬ (200 ≤ resp.statusCode ∧ resp.statusCode < 300) →
      ∃ l ∈ (getTranscription cfg env audio).logs, l.level = LogLevel.warn) := by
  rcases env with ⟨b, cf, pw, wc, nr, sr, rb⟩
  cases h1; cases h2; cases h3; cases h4; cases h5; cases h6
  by_cases h : resp.statusCode = 200
  · simp [getTranscription, h]
  · simp [getTranscription, h]

/-- Witness for C3: a 400 response still comes back as the result, with a
warning logged. -/
theorem c3_response_returned_witness :
    (getTranscription sampleCfg sampleEnv400 []).result = some sampleResp400.body ∧
    (∃ l ∈ (getTranscription sampleCfg sampleEnv400 []).logs, l.level = LogLevel.warn) :=
  ⟨(c3_response_returned sampleCfg sampleEnv400 [] sampleResp400
      rfl rfl rfl rfl rfl rfl).1,
   (c3_response_returned sampleCfg sampleEnv400 [] sampleResp400
      rfl rfl rfl rfl rfl rfl).2 (by decide)⟩

/-- Claim C4: if the transcription endpoint is unreachable (the request
send fails), getTranscription returns null and logs exactly one warning,
and the event handler sends no reply message for that voice note. -/
theorem c4_unreachable_no_reply (cfg : Config) (env : HandlerEnv)
    (m : MessageEvent) (am : AudioMessage) (audio : List Nat) (e : String)
    (h1 : env.tenv.createFormFileErr = none) (h2 : env.tenv.partWriteErr = none)
    (h3 : env.tenv.writerCloseErr = none) (h4 : env.tenv.newRequestErr = none)
    (h5 : env.tenv.sendResult = Except.error e)
    (hm : m.audioMessage = some am) (hp : am.ptt = true)
    (hd : env.downloadResult = Except.ok audio) :
    (getTranscription cfg env.tenv audio).result = none ∧
    warnCount (getTranscription cfg env.tenv audio).logs = 1 ∧
    (handler cfg env (Event.message m)).sentMessages = [] := by
  have hres : getTranscription cfg env.tenv audio =
      { result := none,
        logs := [⟨LogLevel.warn, "Transcription: Error sending request: " ++ e⟩],
        request := some
          { method := "POST", url := cfg.apiUrl,
            headers := [("Content-Type", formDataContentType env.tenv.boundary),
                        ("Authorization", "Bearer " ++ cfg.apiKey)],
            body := [MultipartPart.field "model" "whisper-1",
                     MultipartPart.field "response_format" "text",
                     MultipartPart.file "file" "ptt.oga" audio] } } := by
    rcases env with ⟨dr, ⟨b, cf, pw, wc, nr, sr, rb⟩, se⟩
    cases h1; cases h2; cases h3; cases h4; cases h5
    simp [getTranscription, MultipartWriter.writeField, MultipartWriter.createFormFile,
      MultipartWriter.writeToFilePart, appendToLastFile]
  refine ⟨by rw [hres], by rw [hres]; rfl, ?_⟩
  simp [handler, hm, hd, hp, hres]

/-- Witness for C4 at a concrete unreachable-endpoint environment. -/
theorem c4_unreachable_no_reply_witness :
    (getTranscription sampleCfg sampleHEnvSendFail.tenv [1, 2, 3]).result = none ∧
    warnCount (getTranscription sampleCfg sampleHEnvSendFail.tenv [1, 2, 3]).logs = 1 ∧
    (handler sampleCfg sampleHEnvSendFail (Event.message samplePttEvent)).sentMessages = [] :=
  c4_unreachable_no_reply sampleCfg sampleHEnvSendFail samplePttEvent
    { ptt := true } [1, 2, 3] "connection refused" rfl rfl rfl rfl rfl rfl rfl rfl

/-- Claim C5: for every Message event carrying an audio attachment whose
push-to-talk flag is false, the handler never invokes the transcription
client and sends no reply; the audio is still downloaded, and a download
failure drops the event after logging it. -/
theorem c5_non_ptt_ignored (cfg : Config) (env : HandlerEnv)
    (m : MessageEvent) (am : AudioMessage)
    (hm : m.audioMessage = some am) (hp : am.ptt = false) :
    (handler cfg env (Event.message m)).transcriptionCalls = [] ∧
    (handler cfg env (Event.message m)).sentMessages = [] ∧
    (handler cfg env (Event.message m)).downloads = [am] ∧
    (∀ e, env.downloadResult = Except.error e →
      (handler cfg env (Event.message m)).logs =
        [receivedLog m, ⟨LogLevel.error, "Failed to download audio: " ++ e⟩]) := by
  rcases env with ⟨dr, te, se⟩
  cases dr with
  | error e => simp [handler, hm, hp]
  | ok audio => simp [handler, hm, hp]

/-- Witness for C5 at a concrete non-push-to-talk audio message. -/
theorem c5_non_ptt_ignored_witness :
    (handler sampleCfg sampleHEnvOk (Event.message sampleAudioEvent)).transcriptionCalls = [] ∧
    (handler sampleCfg sampleHEnvOk (Event.message sampleAudioEvent)).sentMessages = [] :=
  ⟨(c5_non_ptt_ignored sampleCfg sampleHEnvOk sampleAudioEvent { ptt := false } rfl rfl).1,
   (c5_non_ptt_ignored sampleCfg sampleHEnvOk sampleAudioEvent { ptt := false } rfl rfl).2.1⟩

/-- Claim C6: for every Message event with a push-to-talk audio attachment
for which the transcription client returns a non-null transcript, the
handler sends exactly one plain text message whose body is the transcript,
to the conversation the voice note came from. -/
theorem c6_transcript_replied (cfg : Config) (env : HandlerEnv)
    (m : MessageEvent) (am : AudioMessage) (audio : List Nat) (text : String)
    (hm : m.audioMessage = some am) (hp : am.ptt = true)
    (hd : env.downloadResult = Except.ok audio)
    (ht : (getTranscription cfg env.tenv audio).result = some text) :
    (handler cfg env (Event.message m)).sentMessages =
      [(m.info.chat, { conversation := some text })] := by
  rcases env with ⟨dr, te, se⟩
  cases hd
  simp [handler, hm, hp, ht]

/-- Witness for C6: a successful chain sends the transcript to the source
chat. -/
theorem c6_transcript_replied_witness :
    (handler sampleCfg sampleHEnvOk (Event.message samplePttEvent)).sentMessages =
      [(samplePttEvent.info.chat, { conversation := some "hello world" })] :=
  c6_transcript_replied sampleCfg sampleHEnvOk samplePttEvent { ptt := true }
    [1, 2, 3] "hello world" rfl rfl rfl rfl

/-- Claim C7: recipient parsing for the send command: a bare number yields
a user identifier on the default user server; a number with explicit
server parses with that server; an input with empty user part is rejected
with a logged error and handleCmd attempts no send for it. -/
theorem c7_recipient_parsing :
    parseJID "491701234567" = some ((NewJID "491701234567" DefaultUserServer, true), []) ∧
    parseJID "491701234567@s.whatsapp.net" =
      some (({ User := "491701234567", Server := "s.whatsapp.net" }, true), []) ∧
    parseJID "@s.whatsapp.net" =
      some (({ User := "", Server := "s.whatsapp.net" }, false),
        [⟨LogLevel.error, "Invalid JID @s.whatsapp.net: no server specified"⟩]) ∧
    (∀ env : CmdEnv, ∀ rest : List String,
      (handleCmd env "send" ("@s.whatsapp.net" :: "hello" :: rest)).actions = []) := by
  refine ⟨by decide, by decide, by decide, ?_⟩
  intro env rest
  have h3 : parseJID "@s.whatsapp.net" =
      some (({ User := "", Server := "s.whatsapp.net" }, false),
        [⟨LogLevel.error, "Invalid JID @s.whatsapp.net: no server specified"⟩]) := by decide
  simp [handleCmd, h3]

/-- Claim C8: while a pairing decision is pending, the lines r and a are
diverted to decide the pending pairing request instead of being parsed as
commands (r rejecting, a accepting), and the pairing callback, which waits
up to 3 seconds, returns accept (true) when no decision arrives in time. -/
theorem c8_pairing_protocol :
    inputStep true "r" = LoopAction.pairDecision true ∧
    inputStep true "a" = LoopAction.pairDecision false ∧
    (∀ cmd : String, cmd ≠ "" →
      ∀ c args, inputStep true cmd ≠ LoopAction.dispatch c args) ∧
    (prePairCallback (some true)).1 = false ∧
    (prePairCallback (some false)).1 = true ∧
    (prePairCallback none).1 = true ∧
    pairDecisionWindowSeconds = 3 := by
  refine ⟨by decide, by decide, ?_, rfl, rfl, rfl, rfl⟩
  intro cmd hne c args
  simp [inputStep, hne]
  by_cases hr : cmd = "r"
  · simp [hr]
  · by_cases ha : cmd = "a"
    · simp [hr, ha]
    · simp [hr, ha]

/-- Witness for C8: while pairing is pending, the line send is not
dispatched as a command. -/
theorem c8_pairing_protocol_witness :
    inputStep true "send" ≠ LoopAction.dispatch "send" [] :=
  c8_pairing_protocol.2.2.1 "send" (by decide) "send" []

/-- Claim C9: any error returned by the message-send operation in the
handler is silently discarded — the observable outcome of handling an
event does not depend on it, and at most one send is attempted per event
(no retry). -/
theorem c9_send_error_discarded (cfg : Config) (env : HandlerEnv) (evt : Event)
    (err : Option String) :
    handler cfg { env with sendErr := err } evt = handler cfg env evt ∧
    (handler cfg env evt).sentMessages.length ≤ 1 := by
  rcases env with ⟨dr, te, se⟩
  rcases evt with _ | _ | m | _
  · exact ⟨rfl, by simp [handler]⟩
  · exact ⟨rfl, by simp [handler]⟩
  · rcases m with ⟨info, am, v1, v2, dc, ed⟩
    rcases am with _ | am
    · exact ⟨rfl, by simp [handler]⟩
    · cases dr with
      | error e => exact ⟨rfl, by simp [handler]⟩
      | ok audio =>
        rcases am with ⟨ptt⟩
        cases ptt
        · exact ⟨rfl, by simp [handler]⟩
        · cases ht : (getTranscription cfg te audio).result with
          | none => constructor <;> simp [handler, ht]
          | some t => constructor <;> simp [handler, ht]
  · exact ⟨rfl, by simp [handler]⟩

/-- Helper for C10: parseJID faults (indexes out of range) exactly on the
empty string. -/
theorem parseJID_none_iff (arg : String) : parseJID arg = none ↔ arg = "" := by
  obtain ⟨data⟩ := arg
  cases data with
  | nil => simp [parseJID]
  | cons c cs =>
    constructor
    · intro h
      simp [parseJID] at h
    · intro h
      exact absurd (congrArg String.data h) (by simp)

/-- Claim C10: parseJID requires a non-empty input to avoid an
out-of-range fault, and the fault happens exactly on the empty string; the
precondition holds at the call site because whitespace-splitting never
yields empty tokens; a single leading plus sign is stripped, so
+491701234567 is treated as a bare identifier on the default server, and
the input consisting of just a plus sign is accepted with an empty user
part rather than rejected. -/
theorem c10_parseJID_safety :
    (∀ arg : String, parseJID arg = none ↔ arg = "") ∧
    (∀ line tok : String, tok ∈ fields line → tok ≠ "") ∧
    parseJID "+491701234567" =
      some ((NewJID "491701234567" DefaultUserServer, true), []) ∧
    parseJID "+" = some ((NewJID "" DefaultUserServer, true), []) := by
  refine ⟨parseJID_none_iff, ?_, by decide, by decide⟩
  intro line tok h
  simp only [fields, List.mem_map, List.mem_filter] at h
  obtain ⟨l, ⟨-, hne⟩, rfl⟩ := h
  intro heq
  have hdata : l = [] := by
    have := congrArg String.data heq
    simpa using this
  subst hdata
  simp at hne

/-- Witness for C10: the empty string faults, and a token produced by
splitting a concrete command line is non-empty. -/
theorem c10_parseJID_safety_witness :
    parseJID "" = none ∧ "send" ≠ "" :=
  ⟨(c10_parseJID_safety.1 "").mpr rfl,
   c10_parseJID_safety.2.1 "send 123" "send" (by decide)⟩

end Transcribe
